import Mathlib

/-!
Shallow embedding of the schema-driven data-access engine in
`src/app/crud/__init__.py` (the `with_session` wrapper, the filter compiler
`_parse_filters` / `_get_sqlalchemy_filter`, the nesting reconciler
`_nest_join_data` with its `_handle_one_to_many` / `_handle_one_to_one`
helpers, and the mutation operations `update`, `delete`, `upsert`).

Python values are modelled by `PyVal`, Python exceptions by `PyErr`,
rows and dicts by insertion-ordered association lists, and SQLAlchemy
predicate objects by the syntactic `Pred` type.  The storage executor is
external to the engine (it only receives compiled statements), so row-level
predicate evaluation is a parameter `evalPred` of the operations that
execute statements; `evalPredStd` is a concrete executor used to evaluate
the development on closed inputs.
-/

namespace Bread

/-- Python values as they appear in filter kwargs, rows and payloads. -/
inductive PyVal where
  | none : PyVal
  | bool : Bool → PyVal
  | int : Int → PyVal
  | str : String → PyVal
  | list : List PyVal → PyVal
  | tuple : List PyVal → PyVal
  | set : List PyVal → PyVal
  | dict : List (String × PyVal) → PyVal

/-- Python exceptions raised by the engine; `dbError` is the repository's
`DBError` (the uniform storage-operation error), carrying the message built
at src/app/crud/__init__.py:74 and the exception it was raised from. -/
inductive PyErr where
  | valueError : String → PyErr
  | typeError : String → PyErr
  | nameError : String → PyErr
  | keyError : String → PyErr
  | attributeError : String → PyErr
  | dbError : String → PyErr → PyErr

/-- `str(e)` for the exceptions above, as interpolated into log and wrapper
messages. -/
def errMsg : PyErr → String
  | .valueError m => m
  | .typeError m => m
  | .nameError m => m
  | .keyError k => k
  | .attributeError m => m
  | .dbError m _ => m

/-- A Python dict / result row: insertion-ordered association list. -/
abbrev Obj := List (String × PyVal)

/-- Lookup in an insertion-ordered association list (Python `d.get(k)` /
`k in d`). -/
def alistGet? {α : Type} : List (String × α) → String → Option α
  | [], _ => Option.none
  | (k0, v0) :: rest, k => if k0 == k then some v0 else alistGet? rest k

/-- Assignment `d[k] = v` on a Python dict: replaces the value in place when
the key exists, appends at the end otherwise. -/
def alistSet {α : Type} : List (String × α) → String → α → List (String × α)
  | [], k, v => [(k, v)]
  | (k0, v0) :: rest, k, v =>
      if k0 == k then (k0, v) :: rest else (k0, v0) :: alistSet rest k v

mutual
/-- Python `==` on the modelled values (used by the concrete executor). -/
def pyValEq : PyVal → PyVal → Bool
  | PyVal.none, PyVal.none => true
  | PyVal.bool a, PyVal.bool b => a == b
  | PyVal.int a, PyVal.int b => a == b
  | PyVal.str a, PyVal.str b => a == b
  | PyVal.list a, PyVal.list b => pyValListEq a b
  | PyVal.tuple a, PyVal.tuple b => pyValListEq a b
  | PyVal.set a, PyVal.set b => pyValListEq a b
  | PyVal.dict a, PyVal.dict b => pyValPairsEq a b
  | _, _ => false
def pyValListEq : List PyVal → List PyVal → Bool
  | [], [] => true
  | a :: xs, b :: ys => pyValEq a b && pyValListEq xs ys
  | _, _ => false
def pyValPairsEq : List (String × PyVal) → List (String × PyVal) → Bool
  | [], [] => true
  | (k1, v1) :: xs, (k2, v2) :: ys => k1 == k2 && pyValEq v1 v2 && pyValPairsEq xs ys
  | _, _ => false
end

/-- `s.startswith(p)`. -/
def strStartsWith (s p : String) : Bool := p.toList.isPrefixOf s.toList

/-- `s[n:]` counting characters, as Python slicing does. -/
def dropChars (s : String) (n : Nat) : String := String.mk (s.toList.drop n)

/-- `len(s)` in characters. -/
def strLen (s : String) : Nat := s.toList.length

/-- Index of the start of the last occurrence of `"__"` in the character
list, scanning left to right and remembering the rightmost match. -/
def lastDunderAux : List Char → Nat → Option Nat → Option Nat
  | c1 :: c2 :: rest, i, acc =>
      lastDunderAux (c2 :: rest) (i + 1) (if c1 == '_' && c2 == '_' then some i else acc)
  | _, _, acc => acc

/-- Python `"__" in key` (src 278). -/
def hasDunder (key : String) : Bool := (lastDunderAux key.toList 0 Option.none).isSome

/-- Python `key.rsplit("__", 1)` for a key containing `"__"` (src 279):
splits at the rightmost occurrence. -/
def rsplitDunder (key : String) : String × String :=
  match lastDunderAux key.toList 0 Option.none with
  | some i => (String.mk (key.toList.take i), String.mk (key.toList.drop (i + 2)))
  | Option.none => (key, "")

/-- `s.rstrip("_")` (src 177, 210). -/
def rstripUnderscore (s : String) : String :=
  String.mk (s.toList.reverse.dropWhile (fun c => c == '_')).reverse

/-- The `EntityDescriptor` of an entity type: class name, `__tablename__`,
mapped column names (attribute lookup on the mapped class resolves these)
and primary-key column names in mapper order. -/
structure ModelDesc where
  name : String
  tablename : String
  columns : List String
  primaryKeys : List String

/-- `_get_primary_key` (src 122-126): name of the first primary-key column.
The source indexes `[0]`; entity types always declare at least one
primary-key column. -/
def _get_primary_key (m : ModelDesc) : String := m.primaryKeys.headD ""

/-- A compiled predicate object, kept syntactic: the engine only builds
these and hands them to the external storage executor. -/
inductive Pred where
  | eq : String → PyVal → Pred
  | binop : String → String → PyVal → Pred
  | orGroup : List Pred → Pred

/-- The keys of `_SUPPORTED_FILTERS` (src 238-257). -/
def SUPPORTED_FILTERS : List String :=
  ["gt", "lt", "gte", "lte", "ne", "is", "is_not", "like", "notlike", "ilike",
   "notilike", "startswith", "endswith", "contains", "match", "between", "in", "not_in"]

/-- Python `isinstance(value, (tuple, list, set))` (src 266). -/
def isSeqVal : PyVal → Bool
  | PyVal.list _ => true
  | PyVal.tuple _ => true
  | PyVal.set _ => true
  | _ => false

/-- `_get_sqlalchemy_filter` (src 259-268): for `in`/`not_in`/`between` the
value must be a tuple, list or set, else `ValueError`; then the operator is
looked up in `_SUPPORTED_FILTERS` with `.get` (absent operators yield
`None`, modelled as `Option.none`). -/
def _get_sqlalchemy_filter (op : String) (value : PyVal) : Except PyErr (Option String) :=
  if op == "in" || op == "not_in" || op == "between" then
    if isSeqVal value then
      .ok (if SUPPORTED_FILTERS.contains op then some op else Option.none)
    else
      .error (.valueError ("<" ++ op ++ "> filter must be tuple, list or set"))
  else
    .ok (if SUPPORTED_FILTERS.contains op then some op else Option.none)

/-- The `op == "or"` arm of `_parse_filters` (src 283-293): each entry of
the mapping is resolved and, when resolvable, applied to the entry's value.
As in the source, the resolution check `cls._get_sqlalchemy_filter(or_key,
value)` receives `value` — the whole or-mapping — rather than `or_value`. -/
def compileOrGroup (field : String) (value : PyVal) :
    List (String × PyVal) → Except PyErr (List Pred)
  | [] => .ok []
  | (or_key, or_value) :: rest =>
      match _get_sqlalchemy_filter or_key value with
      | .error e => .error e
      | .ok Option.none => compileOrGroup field value rest
      | .ok (some opName) =>
          match compileOrGroup field value rest with
          | .error e => .error e
          | .ok ps => .ok (Pred.binop field opName or_value :: ps)

/-- `_parse_filters` (src 270-305): keys containing `"__"` are split at the
rightmost occurrence into field and operator; an unknown field raises, an
`"or"` operator compiles a grouped OR from the mapping value, any other
operator is resolved (unresolvable operators are skipped); a bare key that
is a column compiles to equality unless its value is `None`, and a bare key
that is not a column is skipped. -/
def _parse_filters (m : ModelDesc) : List (String × PyVal) → Except PyErr (List Pred)
  | [] => .ok []
  | (key, value) :: rest =>
    if hasDunder key then
      let fo := rsplitDunder key
      if m.columns.contains fo.1 then
        if fo.2 == "or" then
          match value with
          | PyVal.dict entries =>
              match compileOrGroup fo.1 value entries with
              | .error e => .error e
              | .ok ors =>
                  match _parse_filters m rest with
                  | .error e => .error e
                  | .ok fs => .ok (Pred.orGroup ors :: fs)
          | _ => .error (.attributeError "items")
        else
          match _get_sqlalchemy_filter fo.2 value with
          | .error e => .error e
          | .ok (some opName) =>
              match _parse_filters m rest with
              | .error e => .error e
              | .ok fs => .ok (Pred.binop fo.1 opName value :: fs)
          | .ok Option.none => _parse_filters m rest
      else
        .error (.valueError ("Invalid filter column: " ++ fo.1))
    else
      if m.columns.contains key then
        match value with
        | PyVal.none => _parse_filters m rest
        | _ =>
            match _parse_filters m rest with
            | .error e => .error e
            | .ok fs => .ok (Pred.eq key value :: fs)
      else
        _parse_filters m rest

/-- Integer comparison used by the concrete executor for the comparison
operators it models. -/
def evalIntCmp (op : String) (a b : Int) : Bool :=
  if op == "gt" then a > b
  else if op == "lt" then a < b
  else if op == "gte" then a ≥ b
  else if op == "lte" then a ≤ b
  else if op == "ne" then a ≠ b
  else false

mutual
/-- A concrete storage executor used to evaluate the development on closed
inputs.  Equality, integer comparisons and membership are modelled; the
string-pattern operators are delegated to the database in the source and
evaluate to `false` here. -/
def evalPredStd : Pred → Obj → Bool
  | Pred.eq f v, r =>
      match alistGet? r f with
      | some w => pyValEq w v
      | Option.none => false
  | Pred.binop f op v, r =>
      match alistGet? r f, v with
      | some (PyVal.int a), PyVal.int b => evalIntCmp op a b
      | some w, PyVal.list vs =>
          if op == "in" then vs.any (fun x => pyValEq w x)
          else if op == "not_in" then !(vs.any (fun x => pyValEq w x))
          else false
      | _, _ => false
  | Pred.orGroup ps, r => evalPredAny ps r
def evalPredAny : List Pred → Obj → Bool
  | [], _ => false
  | p :: ps, r => evalPredStd p r || evalPredAny ps r
end

/-- Conjunction of compiled predicates, as the query level applies them. -/
def matchesAll (evalPred : Pred → Obj → Bool) (preds : List Pred) (r : Obj) : Bool :=
  preds.all (fun p => evalPred p r)

/-- Record of the `logger.error` call in `with_session` (src 67-72): acting
entity type, method name, positional and keyword call arguments, and the
caught exception. -/
structure LogRecord where
  modelName : String
  methodName : String
  args : List PyVal
  kwargs : List (String × PyVal)
  err : PyErr

/-- Outcome of one pass through the `with_session` wrapper: the translated
result, the session the body ran with, whether a fresh session/transaction
was opened, and the emitted log record if any. -/
structure WSOutcome (α : Type) where
  result : Except PyErr α
  sessionUsed : Nat
  openedNew : Bool
  log : Option LogRecord

/-- The session the wrapped body runs with: the caller's if one was passed
in `kwargs`, else a freshly opened one. -/
def sessionIdOf (callerSession : Option Nat) (fresh : Nat) : Nat :=
  match callerSession with
  | some s => s
  | Option.none => fresh

/-- Message of the `DBError` raised at src 74. -/
def wrapErrMsg (methodName : String) (e : PyErr) : String :=
  "操作数据库异常：" ++ methodName ++ ": " ++ errMsg e

/-- `with_session` (src 43-76): reuse the caller's session when one is in
`kwargs`, else open a fresh session and transaction; any exception from the
body is caught, logged with the entity type, method name and call
arguments, and re-raised as `DBError` (raised inside the `except` block, so
it chains the caught exception as its context). -/
def with_session {α : Type} (modelName methodName : String) (args : List PyVal)
    (kwargs : List (String × PyVal)) (callerSession : Option Nat) (fresh : Nat)
    (body : Nat → Except PyErr α) : WSOutcome α :=
  let sid := sessionIdOf callerSession fresh
  match body sid with
  | .ok a => ⟨.ok a, sid, callerSession.isNone, Option.none⟩
  | .error e =>
      ⟨.error (.dbError (wrapErrMsg methodName e) e), sid, callerSession.isNone,
       some ⟨modelName, methodName, args, kwargs, e⟩⟩

/-- A value stored in the nested result dict built by `_nest_join_data`:
either a plain top-level value, a nested one-to-one object, or a nested
one-to-many list of objects. -/
inductive NVal where
  | val : PyVal → NVal
  | obj : Obj → NVal
  | objList : List Obj → NVal

/-- The nested result dict. -/
abbrev NDict := List (String × NVal)

/-- A join definition, restricted to the fields `_nest_join_data` reads:
the joined entity, its output-column marker and the declared relationship
cardinality. -/
structure JoinConfig where
  model : ModelDesc
  join_pre : Option String
  relationship_type : Option String

/-- `join.join_prefix or ""` (src 172). -/
def joinPreOrEmpty (j : JoinConfig) : String :=
  match j.join_pre with
  | some s => s
  | Option.none => ""

/-- Truthiness of `join.join_prefix` (src 176-177, 209-212). -/
def joinPreTruthy (j : JoinConfig) : Bool := joinPreOrEmpty j != ""

/-- The nested key of a join (src 176-178, 208-213): the prefix with
trailing underscores stripped when the prefix is truthy, else the joined
entity's `__tablename__`. -/
def nestedKeyOf (j : JoinConfig) : String :=
  if joinPreTruthy j then rstripUnderscore (joinPreOrEmpty j) else j.model.tablename

/-- The temporary marker prepended to joined output columns; the default
`temp_prefix="joined__"` of `_nest_join_data` (src 163), which `get_joined`
always uses. -/
def tempPre : String := "joined__"

/-- `_handle_one_to_many` (src 141-150): ensure the nested key holds a
list; append a fresh one-field object when the list is empty or the field
is already present on its last element, else set the field on the last
element. -/
def _handle_one_to_many (nd : NDict) (nested_key nested_field : String) (value : PyVal) : NDict :=
  let cur : List Obj :=
    match alistGet? nd nested_key with
    | some (NVal.objList l) => l
    | _ => []
  let newList : List Obj :=
    match cur.getLast? with
    | Option.none => cur ++ [[(nested_field, value)]]
    | some last =>
        if last.any (fun p => p.1 == nested_field) then cur ++ [[(nested_field, value)]]
        else cur.dropLast ++ [alistSet last nested_field value]
  alistSet nd nested_key (NVal.objList newList)

/-- `_handle_one_to_one` (src 153-157): ensure the nested key holds a dict
and set the field on it. -/
def _handle_one_to_one (nd : NDict) (nested_key nested_field : String) (value : PyVal) : NDict :=
  let cur : Obj :=
    match alistGet? nd nested_key with
    | some (NVal.obj o) => o
    | _ => []
  alistSet nd nested_key (NVal.obj (alistSet cur nested_field value))

/-- One iteration of the key loop of `_nest_join_data` (src 169-202): the
first join whose marker+prefix the key starts with claims it and the value
is placed per the join's cardinality; otherwise the key stays top-level
after stripping a bare marker. -/
def processKey (joins : List JoinConfig) (nd : NDict) (key : String) (value : PyVal) : NDict :=
  match joins.find? (fun j => strStartsWith key (tempPre ++ joinPreOrEmpty j)) with
  | some j =>
      let fullPre := tempPre ++ joinPreOrEmpty j
      let nested_field := dropChars key (strLen fullPre)
      if j.relationship_type == some "one-to-many" then
        _handle_one_to_many nd (nestedKeyOf j) nested_field value
      else
        _handle_one_to_one nd (nestedKeyOf j) nested_field value
  | Option.none =>
      let stripped := if strStartsWith key tempPre then dropChars key (strLen tempPre) else key
      alistSet nd stripped (NVal.val value)

/-- The generator `any(item[join_primary_key] is None for item in ...)`
(src 216-218): items are inspected left to right, a missing key raises
`KeyError` at the item where it is first indexed, a `None` value
short-circuits to `True`. -/
def anyPkIsNone (pk : String) : List Obj → Except PyErr Bool
  | [] => .ok false
  | item :: rest =>
      match alistGet? item pk with
      | Option.none => .error (.keyError pk)
      | some PyVal.none => .ok true
      | some _ => anyPkIsNone pk rest

/-- The per-join collapse pass of `_nest_join_data` (src 207-226): a
one-to-many nested list containing an item with a `None` primary key
collapses to the empty list; then, if the nested key holds a dict whose
primary-key field is `None`, that object collapses to `None`. -/
def collapseJoin (nd : NDict) (j : JoinConfig) : Except PyErr NDict :=
  let pk := _get_primary_key j.model
  let k := nestedKeyOf j
  let step1 : Except PyErr NDict :=
    if j.relationship_type == some "one-to-many" && (alistGet? nd k).isSome then
      match (alistGet? nd k).getD (NVal.objList []) with
      | NVal.objList items =>
          match anyPkIsNone pk items with
          | .error e => .error e
          | .ok b => .ok (if b then alistSet nd k (NVal.objList []) else nd)
      | _ => .ok nd
    else .ok nd
  match step1 with
  | .error e => .error e
  | .ok nd1 =>
      match alistGet? nd1 k with
      | some (NVal.obj o) =>
          match alistGet? o pk with
          | some PyVal.none => .ok (alistSet nd1 k (NVal.val PyVal.none))
          | _ => .ok nd1
      | _ => .ok nd1

/-- `_nest_join_data` (src 160-229) with the default temporary marker:
place every column of one flat row into the accumulated nested dict, then
run the per-join collapse pass. -/
def _nest_join_data (data : Obj) (join_definitions : List JoinConfig) (nested_data : NDict) :
    Except PyErr NDict :=
  let nd := data.foldl (fun nd kv => processKey join_definitions nd kv.1 kv.2) nested_data
  join_definitions.foldlM collapseJoin nd

/-- The nesting loop of `get_joined` (src 634-641): fold every fetched row
through `_nest_join_data` into one accumulated nested dict. -/
def nestRows (rows : List Obj) (join_definitions : List JoinConfig) : Except PyErr NDict :=
  rows.foldlM (fun nd row => _nest_join_data row join_definitions nd) []

/-- `_extract_matching_columns_from_schema` (src 79-119) restricted to what
the modelled operations use (no alias, no marker): the schema's fields that
are attributes of the model, or every table column when no schema is
given. -/
def extract_matching_columns (m : ModelDesc) (schema : Option (List String)) : List String :=
  match schema with
  | some fields => fields.filter (fun f => m.columns.contains f)
  | Option.none => m.columns

/-- Projection of a stored row onto the selected columns, in selection
order, as the executed statement returns it. -/
def projectRow (cols : List String) (r : Obj) : Obj :=
  cols.foldl (fun acc c =>
    match alistGet? r c with
    | some v => acc ++ [(c, v)]
    | Option.none => acc) []

/-- Body of `count` (src 487-503): compile the filters and count the
matching rows. -/
def count_body (evalPred : Pred → Obj → Bool) (m : ModelDesc) (store : List Obj)
    (kwargs : List (String × PyVal)) : Except PyErr Nat :=
  match _parse_filters m kwargs with
  | .error e => .error e
  | .ok preds => .ok ((store.filter (matchesAll evalPred preds)).length)

/-- `count(**kwargs)` as `update`/`delete` call it (src 708, 799): the body
runs through `with_session` with no caller session. -/
def count_via_session (evalPred : Pred → Obj → Bool) (m : ModelDesc) (store : List Obj)
    (kwargs : List (String × PyVal)) (fresh : Nat) : Except PyErr Nat :=
  (with_session m.name "count" [] kwargs Option.none fresh
    (fun _ => count_body evalPred m store kwargs)).result

/-- `UPDATE ... SET`: apply the `values` mapping to a row in order. -/
def applyValues (r : Obj) (vals : List (String × PyVal)) : Obj :=
  vals.foldl (fun acc kv => alistSet acc kv.1 kv.2) r

/-- Body of `update` (src 694-752) on the plain-execute path
(`return_columns=None`, `return_as_model=False`), returning the result
together with the storage state when control leaves the body: when
`allow_multiple` is not set the matching rows are counted first and more
than one match raises before anything is written; then `updated_at` is
auto-populated when the entity declares it, payload keys outside the
entity's columns raise, and the compiled statement updates every matching
row. -/
def update_op (evalPred : Pred → Obj → Bool) (m : ModelDesc) (store : List Obj) (obj : Obj)
    (allow_multiple : Bool) (now : PyVal) (fresh : Nat) (kwargs : List (String × PyVal)) :
    Except PyErr Unit × List Obj :=
  let guard : Except PyErr Unit :=
    if allow_multiple then .ok ()
    else
      match count_via_session evalPred m store kwargs fresh with
      | .error e => .error e
      | .ok total =>
          if total > 1 then
            .error (.valueError ("Expected exactly one record to update, found " ++
              toString total ++ "."))
          else .ok ()
  match guard with
  | .error e => (.error e, store)
  | .ok _ =>
      let update_data :=
        if m.columns.contains "updated_at" then alistSet obj "updated_at" now else obj
      let extra := (update_data.map (fun kv => kv.1)).filter (fun k => !(m.columns.contains k))
      if extra.isEmpty then
        match _parse_filters m kwargs with
        | .error e => (.error e, store)
        | .ok preds =>
            (.ok (), store.map (fun r =>
              if matchesAll evalPred preds r then applyValues r update_data else r))
      else
        (.error (.valueError ("Extra fields provided: " ++ String.intercalate ", " extra)), store)

/-- Body of `delete` (src 776-823) on the filter-based path
(`db_row=None`), returning the result together with the storage state when
control leaves the body: compile the filters, count the matches, raise on
zero matches, raise on several matches without `allow_multiple`; then soft
delete (an update setting `is_deleted`/`deleted_at`, key names from the
class attributes at src 234-235 used literally at src 813) when the entity
declares `is_deleted`, else hard delete.  A soft delete on an entity with
`is_deleted` but no `deleted_at` column is rejected by the statement
compiler of the storage executor. -/
def delete_op (evalPred : Pred → Obj → Bool) (m : ModelDesc) (store : List Obj)
    (allow_multiple : Bool) (now : PyVal) (fresh : Nat) (kwargs : List (String × PyVal)) :
    Except PyErr Unit × List Obj :=
  match _parse_filters m kwargs with
  | .error e => (.error e, store)
  | .ok preds =>
      match count_via_session evalPred m store kwargs fresh with
      | .error e => (.error e, store)
      | .ok total =>
          if total = 0 then (.error (.valueError "No record found to delete."), store)
          else if !allow_multiple && total > 1 then
            (.error (.valueError ("Expected exactly one record to delete, found " ++
              toString total ++ ".")), store)
          else if m.columns.contains "is_deleted" then
            if m.columns.contains "deleted_at" then
              (.ok (), store.map (fun r =>
                if matchesAll evalPred preds r then
                  applyValues r [("is_deleted", PyVal.bool true), ("deleted_at", now)]
                else r))
            else
              (.error (.valueError "Unconsumed column names: deleted_at"), store)
          else
            (.ok (), store.filter (fun r => !(matchesAll evalPred preds r)))

/-- Body of `get` (src 414-438) with `return_as_model=False`: build the
projection, compile the filters, return the first matching row or `None`. -/
def get_body (evalPred : Pred → Obj → Bool) (m : ModelDesc) (store : List Obj)
    (schema : Option (List String)) (kwargs : List (String × PyVal)) :
    Except PyErr (Option Obj) :=
  let cols := extract_matching_columns m schema
  match _parse_filters m kwargs with
  | .error e => .error e
  | .ok preds => .ok ((store.find? (matchesAll evalPred preds)).map (projectRow cols))

/-- `cls.get(...)` as `upsert` calls it: the body runs through
`with_session` with no caller session. -/
def get_op (evalPred : Pred → Obj → Bool) (m : ModelDesc) (store : List Obj)
    (schema : Option (List String)) (kwargs : List (String × PyVal)) (fresh : Nat) :
    Except PyErr (Option Obj) :=
  (with_session m.name "get" [] kwargs Option.none fresh
    (fun _ => get_body evalPred m store schema kwargs)).result

/-- `_get_pk_dict` (src 440-445): `getattr(instance, pk.name)` for each
primary-key column; a missing attribute raises `AttributeError`. -/
def get_pk_dict (m : ModelDesc) (inst : Obj) : Except PyErr (List (String × PyVal)) :=
  m.primaryKeys.foldr (fun pk acc =>
    match alistGet? inst pk with
    | some v =>
        match acc with
        | .error e => .error e
        | .ok ps => .ok ((pk, v) :: ps)
    | Option.none => .error (.attributeError pk)) (.ok [])

/-- Parameter binding for `create` (src 382-393): after `cls` every
parameter is keyword-only (`*, obj, commit, session`), so binding `nPos`
positional arguments beyond `cls` fails with `TypeError` unless `nPos` is
zero. -/
def bindCreateArgs (nPos : Nat) : Except PyErr Unit :=
  if nPos == 0 then .ok ()
  else
    .error (.typeError ("create() takes 1 positional argument but " ++
      toString (nPos + 1) ++ " were given"))

/-- The call `cls.create(instance)` at src 463: `instance` is passed
positionally through the `with_session` wrapper into `create`; when binding
succeeds the body (src 388-393) would instantiate the entity from the
payload, stage it and commit. -/
def create_positional_call (m : ModelDesc) (store : List Obj) (inst : Obj) (fresh : Nat) :
    WSOutcome (Obj × List Obj) :=
  with_session m.name "create" [PyVal.dict inst] [] Option.none fresh (fun _ =>
    match bindCreateArgs 1 with
    | .error e => .error e
    | .ok _ => .ok (inst, store ++ [inst]))

/-- The local names bound in the body of `upsert` (src 447-475) when the
update branch at src 468 executes; the module's globals and the builtins
bind no name `db` either. -/
def upsertScope : List String :=
  ["cls", "instance", "schema_to_select", "return_as_model", "_pks", "db_instance"]

/-- Python name resolution for a bare name in a scope: an unbound name
raises `NameError` when evaluated. -/
def resolveName (scope : List String) (n : String) : Except PyErr Unit :=
  if scope.contains n then .ok ()
  else .error (.nameError ("name " ++ n ++ " is not defined"))

/-- `upsert` (src 447-475): resolve the primary-key values from the
instance, look the row up; when absent run `cls.create(instance)` — the
payload is passed positionally — and validate the created object; when
present evaluate `cls.update(db, instance)` — whose first argument is the
name `db` — and re-fetch.  `upsert` itself is not wrapped by
`with_session`. -/
def upsert (evalPred : Pred → Obj → Bool) (m : ModelDesc) (store : List Obj) (inst : Obj)
    (fresh : Nat) : Except PyErr (Option Obj) :=
  match get_pk_dict m inst with
  | .error e => .error e
  | .ok _pks =>
      let schemaFields := inst.map (fun kv => kv.1)
      match get_op evalPred m store (some schemaFields) _pks fresh with
      | .error e => .error e
      | .ok Option.none =>
          match (create_positional_call m store inst fresh).result with
          | .error e => .error e
          | .ok created => .ok (some created.1)
      | .ok (some _) =>
          match resolveName upsertScope "db" with
          | .error e => .error e
          | .ok _ =>
              match get_op evalPred m store (some schemaFields) _pks fresh with
              | .error e => .error e
              | .ok r => .ok r

/-! Concrete fixtures used to evaluate the development on closed inputs. -/

/-- A plain entity with columns `id` (primary key) and `name`, and no
soft-delete columns. -/
def userModel : ModelDesc := ⟨"User", "users", ["id", "name"], ["id"]⟩

/-- A joined child entity with columns `id` (primary key) and `name`. -/
def childModel : ModelDesc := ⟨"Child", "children", ["id", "name"], ["id"]⟩

/-- A one-to-many join on `childModel` with output marker `child_`. -/
def childJoin : JoinConfig := ⟨childModel, some "child_", some "one-to-many"⟩

/-- An entity declaring the soft-delete columns and the audit column. -/
def softModel : ModelDesc :=
  ⟨"Case", "cases", ["id", "name", "is_deleted", "deleted_at", "updated_at"], ["id"]⟩

/-- One live row of `softModel`. -/
def softStore : List Obj :=
  [[("id", PyVal.int 1), ("name", PyVal.str "a"), ("is_deleted", PyVal.bool false),
    ("deleted_at", PyVal.none), ("updated_at", PyVal.none)]]

/-- Two rows of `userModel` sharing the same `name`. -/
def twoRows : List Obj :=
  [[("id", PyVal.int 1), ("name", PyVal.str "a")],
   [("id", PyVal.int 2), ("name", PyVal.str "a")]]

/-! Helper lemmas. -/

/-- Setting a key makes it readable back. -/
theorem alistGet?_alistSet_self {α : Type} (d : List (String × α)) (k : String) (v : α) :
    alistGet? (alistSet d k v) k = some v := by
  induction d with
  | nil => simp [alistSet, alistGet?]
  | cons p rest ih =>
      obtain ⟨k0, v0⟩ := p
      by_cases h : (k0 == k) = true
      · simp [alistSet, alistGet?, h]
      · simp [alistSet, alistGet?, h, ih]

/-- Membership form of a true `contains` fact. -/
theorem contains_true_mem {a : String} {l : List String} (h : l.contains a = true) : a ∈ l :=
  List.mem_of_elem_eq_true h

/-- Non-membership form of a false `contains` fact. -/
theorem contains_false_not_mem {a : String} {l : List String} (h : l.contains a = false) :
    a ∉ l := by
  intro hm
  rw [List.contains_eq_any_beq] at h
  simp at h
  exact h a hm rfl

/-- `_nest_join_data` with no row columns and a single join is exactly that
join's collapse pass. -/
theorem nest_join_data_single (j : JoinConfig) (nd : NDict) :
    _nest_join_data [] [j] nd = collapseJoin nd j := by
  unfold _nest_join_data
  simp only [List.foldl_nil]
  cases h : collapseJoin nd j <;> simp [List.foldlM, h, Except.bind]

/-! Claim theorems. -/

/-- C1: evaluation of `upsert` at its two branches.  On the create branch
(primary key absent from storage) the positional call `cls.create(instance)`
at src 463 cannot bind `create`'s keyword-only parameters, and the
`TypeError` is re-raised by `with_session` as `DBError`; on the update
branch (primary key present) evaluating `cls.update(db, instance)` at src
468 raises `NameError` for the unbound name `db`.  Neither branch performs
the claimed create/update followed by a re-fetch of the canonical row. -/
theorem upsert_both_branches_fail :
    upsert evalPredStd userModel [] [("id", PyVal.int 1), ("name", PyVal.str "a")] 1
      = .error (.dbError
          "操作数据库异常：create: create() takes 1 positional argument but 2 were given"
          (.typeError "create() takes 1 positional argument but 2 were given"))
    ∧ upsert evalPredStd userModel [[("id", PyVal.int 1), ("name", PyVal.str "b")]]
        [("id", PyVal.int 1), ("name", PyVal.str "a")] 1
      = .error (.nameError "name db is not defined") :=
  ⟨rfl, rfl⟩

/-- C2 counterexample: `foo` is not a supported operator, yet compiling the
filter `name__foo` on an entity with a `name` column raises nothing and
produces no predicate — the claim that compilation raises
`InvalidFilterError` for an unsupported operator suffix is false at this
input. -/
theorem unsupported_operator_not_raised_cex :
    _parse_filters userModel [("name__foo", PyVal.str "x")] = .ok []
      ∧ SUPPORTED_FILTERS.contains "foo" = false :=
  ⟨rfl, rfl⟩

/-- C2 amended: for every filter keyword `field__operator` whose field
resolves to a column and whose operator suffix is neither in the supported
operator set nor `or`, filter compilation silently skips the entry — it
contributes no predicate and raises no error. -/
theorem unsupported_operator_skipped (m : ModelDesc) (key f op : String) (v : PyVal)
    (rest : List (String × PyVal))
    (h1 : hasDunder key = true) (h2 : rsplitDunder key = (f, op))
    (h3 : m.columns.contains f = true)
    (h4 : SUPPORTED_FILTERS.contains op = false)
    (h5 : (op == "or") = false) :
    _parse_filters m ((key, v) :: rest) = _parse_filters m rest := by
  have hne : ∀ s : String, SUPPORTED_FILTERS.contains s = true → (op == s) = false := by
    intro s hs
    cases hc : op == s
    · rfl
    · exact absurd h4 (by rw [eq_of_beq hc, hs]; simp)
  have hin := hne "in" rfl
  have hnotin := hne "not_in" rfl
  have hbet := hne "between" rfl
  simp [_parse_filters, h1, h2, contains_true_mem h3, h5, _get_sqlalchemy_filter,
    hin, hnotin, hbet, contains_false_not_mem h4]

/-- C2 amended, evaluated: the unsupported operator `foo` is skipped. -/
theorem unsupported_operator_skipped_witness :
    _parse_filters userModel [("name__foo", PyVal.str "x")] = _parse_filters userModel [] :=
  unsupported_operator_skipped userModel "name__foo" "name" "foo" (PyVal.str "x") []
    rfl rfl rfl rfl rfl

/-- C3: a `field__or` mapping entry using the supported multi-valued
operator `in` with a list value — which the claim says compiles
independently into a predicate — raises `ValueError` instead, because the
resolution check at src 288-289 receives the whole or-mapping (`value`)
rather than the entry's own value (`or_value`); the second conjunct shows
the entry's own value would have passed the check. -/
theorem or_group_multivalue_operator_raises :
    _parse_filters userModel
        [("name__or", PyVal.dict [("in", PyVal.list [PyVal.str "a", PyVal.str "b"])])]
      = .error (.valueError "<in> filter must be tuple, list or set")
    ∧ _get_sqlalchemy_filter "in" (PyVal.list [PyVal.str "a", PyVal.str "b"])
      = .ok (some "in") :=
  ⟨rfl, rfl⟩

/-- C9: a bare filter keyword (no `__`) that is not a column is silently
skipped whatever its value — it produces no predicate and raises no
error — while the `field__operator` form with an unknown field raises. -/
theorem bare_unknown_filter_spec :
    (∀ (m : ModelDesc) (key : String) (v : PyVal) (rest : List (String × PyVal)),
        hasDunder key = false → m.columns.contains key = false →
        _parse_filters m ((key, v) :: rest) = _parse_filters m rest)
    ∧ (∀ (m : ModelDesc) (key f op : String) (v : PyVal) (rest : List (String × PyVal)),
        hasDunder key = true → rsplitDunder key = (f, op) → m.columns.contains f = false →
        _parse_filters m ((key, v) :: rest)
          = .error (.valueError ("Invalid filter column: " ++ f))) := by
  constructor
  · intro m key v rest h1 h2
    simp [_parse_filters, h1, contains_false_not_mem h2]
  · intro m key f op v rest h1 h2 h3
    simp [_parse_filters, h1, h2, contains_false_not_mem h3]

/-- C9, evaluated: the unknown bare key `zzz` with a non-null value is
skipped; the dunder form `zzz__gt` raises. -/
theorem bare_unknown_filter_spec_witness :
    _parse_filters userModel [("zzz", PyVal.int 5)] = _parse_filters userModel []
    ∧ _parse_filters userModel [("zzz__gt", PyVal.int 5)]
      = .error (.valueError "Invalid filter column: zzz") :=
  ⟨bare_unknown_filter_spec.1 userModel "zzz" (PyVal.int 5) [] rfl rfl,
   bare_unknown_filter_spec.2 userModel "zzz__gt" "zzz" "gt" (PyVal.int 5) [] rfl rfl rfl⟩

/-- C7: after all rows are assembled, a one-to-many nested list in which
every accumulated child object carries a `None` primary key collapses to
the empty list; in particular a parent row outer-joined to zero children
(all joined columns `None`) yields an empty list for the child key; and a
one-to-one nested object whose primary-key field is `None` collapses to
`None`. -/
theorem nest_null_collapse_spec :
    (∀ (j : JoinConfig) (nd : NDict) (items : List Obj),
        j.relationship_type = some "one-to-many" →
        alistGet? nd (nestedKeyOf j) = some (NVal.objList items) →
        (∀ it ∈ items, alistGet? it (_get_primary_key j.model) = some PyVal.none) →
        ∃ nd', _nest_join_data [] [j] nd = .ok nd'
          ∧ alistGet? nd' (nestedKeyOf j) = some (NVal.objList []))
    ∧ (nestRows
        [[("id", PyVal.int 1), ("joined__child_id", PyVal.none),
          ("joined__child_name", PyVal.none)]] [childJoin]
        = .ok [("id", NVal.val (PyVal.int 1)), ("child", NVal.objList [])])
    ∧ (∀ (j : JoinConfig) (nd : NDict) (o : Obj),
        j.relationship_type = some "one-to-one" →
        alistGet? nd (nestedKeyOf j) = some (NVal.obj o) →
        alistGet? o (_get_primary_key j.model) = some PyVal.none →
        ∃ nd', _nest_join_data [] [j] nd = .ok nd'
          ∧ alistGet? nd' (nestedKeyOf j) = some (NVal.val PyVal.none)) := by
  refine ⟨?_, rfl, ?_⟩
  · intro j nd items hrel hget hall
    have hbeq : (j.relationship_type == some "one-to-many") = true := by rw [hrel]; rfl
    rw [nest_join_data_single]
    cases items with
    | nil =>
        refine ⟨nd, ?_, hget⟩
        simp [collapseJoin, hbeq, hget, anyPkIsNone]
    | cons it rest =>
        have hit := hall it (List.mem_cons_self it rest)
        refine ⟨alistSet nd (nestedKeyOf j) (NVal.objList []), ?_,
          alistGet?_alistSet_self _ _ _⟩
        simp [collapseJoin, hbeq, hget, anyPkIsNone, hit, alistGet?_alistSet_self]
  · intro j nd o hrel hget hpk
    have hbeq : (j.relationship_type == some "one-to-many") = false := by rw [hrel]; rfl
    rw [nest_join_data_single]
    refine ⟨alistSet nd (nestedKeyOf j) (NVal.val PyVal.none), ?_,
      alistGet?_alistSet_self _ _ _⟩
    simp [collapseJoin, hbeq, hget, hpk]

/-- C7, evaluated: a one-element child list whose single object has a
`None` primary key collapses to the empty list. -/
theorem nest_null_collapse_spec_witness :
    ∃ nd', _nest_join_data [] [childJoin]
        [("child", NVal.objList [[("id", PyVal.none)]])] = .ok nd'
      ∧ alistGet? nd' (nestedKeyOf childJoin) = some (NVal.objList []) :=
  nest_null_collapse_spec.1 childJoin [("child", NVal.objList [[("id", PyVal.none)]])]
    [[("id", PyVal.none)]] rfl rfl
    (by intro it hit; simp at hit; subst hit; rfl)

/-- C8: `_handle_one_to_many` starts a new list element exactly when the
current field name already exists on the last element (first two
conjuncts: append when present, merge when absent); consequently two
joined child rows sharing one parent row reconcile into a two-element
child list under one parent object, in input row order (third
conjunct). -/
theorem one_to_many_accumulation_spec :
    (∀ (nd : NDict) (k f : String) (v : PyVal) (items : List Obj) (last : Obj),
        alistGet? nd k = some (NVal.objList items) →
        items.getLast? = some last →
        last.any (fun p => p.1 == f) = true →
        alistGet? (_handle_one_to_many nd k f v) k
          = some (NVal.objList (items ++ [[(f, v)]])))
    ∧ (∀ (nd : NDict) (k f : String) (v : PyVal) (items : List Obj) (last : Obj),
        alistGet? nd k = some (NVal.objList items) →
        items.getLast? = some last →
        last.any (fun p => p.1 == f) = false →
        alistGet? (_handle_one_to_many nd k f v) k
          = some (NVal.objList (items.dropLast ++ [alistSet last f v])))
    ∧ (∀ (p1 i1 i2 : Int) (b d : PyVal),
        nestRows
          [[("id", PyVal.int p1), ("joined__child_id", PyVal.int i1),
            ("joined__child_name", b)],
           [("id", PyVal.int p1), ("joined__child_id", PyVal.int i2),
            ("joined__child_name", d)]] [childJoin]
        = .ok [("id", NVal.val (PyVal.int p1)),
               ("child", NVal.objList [[("id", PyVal.int i1), ("name", b)],
                                       [("id", PyVal.int i2), ("name", d)]])]) := by
  refine ⟨?_, ?_, fun p1 i1 i2 b d => rfl⟩
  · intro nd k f v items last hget hlast hany
    simp [_handle_one_to_many, hget, hlast, hany, alistGet?_alistSet_self]
  · intro nd k f v items last hget hlast hany
    simp [_handle_one_to_many, hget, hlast, hany, alistGet?_alistSet_self]

/-- C8, evaluated: a second child row whose first field repeats the field
of the accumulated last element opens a new list element. -/
theorem one_to_many_accumulation_spec_witness :
    alistGet? (_handle_one_to_many [("child", NVal.objList [[("id", PyVal.int 1)]])]
        "child" "id" (PyVal.int 2)) "child"
      = some (NVal.objList [[("id", PyVal.int 1)], [("id", PyVal.int 2)]]) :=
  one_to_many_accumulation_spec.1 [("child", NVal.objList [[("id", PyVal.int 1)]])]
    "child" "id" (PyVal.int 2) [[("id", PyVal.int 1)]] [("id", PyVal.int 1)] rfl rfl rfl

/-- C10: when the accumulated one-to-many child objects lack the joined
entity's primary-key field (its projected output omitted the primary key),
the all-null collapse check of `_nest_join_data` indexes the missing key
and reconciliation fails with `KeyError` instead of returning a nested
result; the second conjunct evaluates this end to end on one row whose
joined projection omits the primary key. -/
theorem nest_missing_pk_keyerror_spec :
    (∀ (j : JoinConfig) (nd : NDict) (item : Obj) (rest : List Obj),
        j.relationship_type = some "one-to-many" →
        alistGet? nd (nestedKeyOf j) = some (NVal.objList (item :: rest)) →
        (∀ it ∈ item :: rest, alistGet? it (_get_primary_key j.model) = Option.none) →
        _nest_join_data [] [j] nd = .error (.keyError (_get_primary_key j.model)))
    ∧ (nestRows [[("id", PyVal.int 1), ("joined__child_name", PyVal.str "x")]] [childJoin]
        = .error (.keyError "id")) := by
  refine ⟨?_, rfl⟩
  intro j nd item rest hrel hget hall
  have hbeq : (j.relationship_type == some "one-to-many") = true := by rw [hrel]; rfl
  have hit := hall item (List.mem_cons_self item rest)
  rw [nest_join_data_single]
  simp [collapseJoin, hbeq, hget, anyPkIsNone, hit]

/-- C10, evaluated through the theorem: a one-element child list whose
object lacks the primary-key field makes reconciliation fail. -/
theorem nest_missing_pk_keyerror_spec_witness :
    _nest_join_data [] [childJoin] [("child", NVal.objList [[("name", PyVal.str "x")]])]
      = .error (.keyError "id") :=
  nest_missing_pk_keyerror_spec.1 childJoin
    [("child", NVal.objList [[("name", PyVal.str "x")]])] [("name", PyVal.str "x")] []
    rfl rfl (by intro it hit; simp at hit; subst hit; rfl)

/-- C4: the `with_session` wrapper reuses a caller-supplied session without
opening a new one (first conjunct), opens a fresh session and transaction
otherwise (second conjunct), and for every exception raised by the wrapped
body it produces exactly one `DBError` carrying the original exception and
a log record holding the entity type, the method name and the call
arguments (third conjunct). -/
theorem with_session_spec {α : Type} (mName fName : String) (args : List PyVal)
    (kwargs : List (String × PyVal)) (body : Nat → Except PyErr α) (s fresh : Nat) :
    ((with_session mName fName args kwargs (some s) fresh body).sessionUsed = s
      ∧ (with_session mName fName args kwargs (some s) fresh body).openedNew = false)
    ∧ ((with_session mName fName args kwargs Option.none fresh body).sessionUsed = fresh
      ∧ (with_session mName fName args kwargs Option.none fresh body).openedNew = true)
    ∧ (∀ (cs : Option Nat) (e : PyErr), body (sessionIdOf cs fresh) = .error e →
        (with_session mName fName args kwargs cs fresh body).result
          = .error (.dbError (wrapErrMsg fName e) e)
        ∧ (with_session mName fName args kwargs cs fresh body).log
          = some ⟨mName, fName, args, kwargs, e⟩) := by
  refine ⟨?_, ?_, ?_⟩
  · cases h : body s <;> constructor <;> simp [with_session, h, sessionIdOf]
  · cases h : body fresh <;> constructor <;> simp [with_session, h, sessionIdOf]
  · intro cs e he
    cases cs <;>
      (simp only [sessionIdOf] at he; constructor <;> simp [with_session, he, sessionIdOf])

/-- C4, evaluated: a failing body surfaces as exactly one `DBError` with
the original exception chained and a log record carrying the call data. -/
theorem with_session_spec_witness :
    (with_session "User" "get" [] ([] : List (String × PyVal)) Option.none 7
        (fun _ : Nat => (.error (.valueError "boom") : Except PyErr Unit))).result
      = .error (.dbError (wrapErrMsg "get" (.valueError "boom")) (.valueError "boom"))
    ∧ (with_session "User" "get" [] ([] : List (String × PyVal)) Option.none 7
        (fun _ : Nat => (.error (.valueError "boom") : Except PyErr Unit))).log
      = some ⟨"User", "get", [], [], .valueError "boom"⟩ :=
  (with_session_spec "User" "get" [] []
    (fun _ : Nat => (.error (.valueError "boom") : Except PyErr Unit)) 5 7).2.2
    Option.none (.valueError "boom") rfl

/-- C5: an `update` whose filters match more than one row and whose
`allow_multiple` flag is not set counts the matching rows, raises the
expected-single-row error naming that count, and leaves the storage state
untouched — zero writes. -/
theorem update_single_row_guard (evalPred : Pred → Obj → Bool) (m : ModelDesc)
    (store : List Obj) (obj : Obj) (now : PyVal) (fresh : Nat)
    (kwargs : List (String × PyVal)) (preds : List Pred) (n : Nat)
    (hp : _parse_filters m kwargs = .ok preds)
    (hn : (store.filter (matchesAll evalPred preds)).length = n)
    (h2 : 1 < n) :
    update_op evalPred m store obj false now fresh kwargs
      = (.error (.valueError ("Expected exactly one record to update, found "
          ++ toString n ++ ".")), store) := by
  simp [update_op, count_via_session, with_session, count_body, hp, hn, sessionIdOf, h2]

/-- C5, evaluated: two matching rows without `allow_multiple` raise and
leave both rows unchanged. -/
theorem update_single_row_guard_witness :
    update_op evalPredStd userModel twoRows [("name", PyVal.str "z")] false
        (PyVal.str "T") 1 [("name", PyVal.str "a")]
      = (.error (.valueError "Expected exactly one record to update, found 2."), twoRows) :=
  update_single_row_guard evalPredStd userModel twoRows [("name", PyVal.str "z")]
    (PyVal.str "T") 1 [("name", PyVal.str "a")] [Pred.eq "name" (PyVal.str "a")] 2
    rfl rfl (by decide)

/-- C6: a filter-based `delete` on an entity declaring the soft-delete
columns executes as an update that sets `is_deleted` and `deleted_at` on
the matching rows and keeps every row physically present (first conjunct,
with the length identity); on an entity without them it physically removes
the matching rows (second conjunct); and a delete whose filters match zero
rows raises the not-found error and writes nothing (third conjunct). -/
theorem delete_soft_hard_spec (evalPred : Pred → Obj → Bool) (m : ModelDesc)
    (store : List Obj) (now : PyVal) (fresh : Nat) (kwargs : List (String × PyVal))
    (preds : List Pred) (n : Nat)
    (hp : _parse_filters m kwargs = .ok preds)
    (hn : (store.filter (matchesAll evalPred preds)).length = n) :
    (n ≠ 0 → m.columns.contains "is_deleted" = true →
      m.columns.contains "deleted_at" = true →
      delete_op evalPred m store true now fresh kwargs
        = (.ok (), store.map (fun r =>
            if matchesAll evalPred preds r then
              applyValues r [("is_deleted", PyVal.bool true), ("deleted_at", now)]
            else r))
      ∧ (store.map (fun r =>
            if matchesAll evalPred preds r then
              applyValues r [("is_deleted", PyVal.bool true), ("deleted_at", now)]
            else r)).length = store.length)
    ∧ (n ≠ 0 → m.columns.contains "is_deleted" = false →
        delete_op evalPred m store true now fresh kwargs
          = (.ok (), store.filter (fun r => !(matchesAll evalPred preds r))))
    ∧ (∀ allow : Bool, n = 0 →
        delete_op evalPred m store allow now fresh kwargs
          = (.error (.valueError "No record found to delete."), store)) := by
  refine ⟨?_, ?_, ?_⟩
  · intro h0 hsoft hts
    constructor
    · simp [delete_op, count_via_session, with_session, count_body, hp, hn, sessionIdOf,
        h0, contains_true_mem hsoft, contains_true_mem hts]
    · simp
  · intro h0 hhard
    simp [delete_op, count_via_session, with_session, count_body, hp, hn, sessionIdOf,
      h0, contains_false_not_mem hhard]
  · intro allow h0
    simp [delete_op, count_via_session, with_session, count_body, hp, hn, sessionIdOf, h0]

/-- C6, evaluated: soft delete on `softModel` keeps the row and sets the
flag and timestamp. -/
theorem delete_soft_hard_spec_witness :
    delete_op evalPredStd softModel softStore true (PyVal.str "T") 1 [("id", PyVal.int 1)]
      = (.ok (), [[("id", PyVal.int 1), ("name", PyVal.str "a"),
          ("is_deleted", PyVal.bool true), ("deleted_at", PyVal.str "T"),
          ("updated_at", PyVal.none)]]) :=
  ((delete_soft_hard_spec evalPredStd softModel softStore (PyVal.str "T") 1
      [("id", PyVal.int 1)] [Pred.eq "id" (PyVal.int 1)] 1 rfl rfl).1
    (by decide) rfl rfl).1

end Bread
